import Mathlib

/-!
Formal model of the synthetic bedrock maps program: synthetic binary
"truth" and "model" grids of bedrock exposure, error models deriving a
model grid from a truth grid, and confusion-matrix accuracy metrics.

The repository consists of a main sweep script (`synthetic_bedrock_maps_main.py`,
embedded below as `scenarioDispatch` / `sweepIteration`) and a functions
module of which only the header docstring survives in the sources; the
function bodies (`tor_location`, `generate_grid`, `model_offset`,
`model_rand_err`, `accuracy_metrics`, `edge_to_area`) are therefore
modelled from the specification text, as marked on each definition.
-/

namespace Bedrock

/-- A binary bedrock grid of side length `L`: cell values in {0 (soil,
`false`), 1 (bedrock, `true`)}, indexed toroidally by `ZMod L` so that the
wrap-around offset model is index arithmetic. -/
abbrev Grid (L : ℕ) := ZMod L → ZMod L → Bool

/-- Count of occupied (bedrock) cells of a grid, i.e. `np.sum(z)` for a
0/1-valued array. -/
def occupiedCount (L : ℕ) [NeZero L] (g : Grid L) : ℕ :=
  ∑ p : ZMod L × ZMod L, if g p.1 p.2 then 1 else 0

/-- Occupied fraction of a grid: (count of 1s) / L². -/
def occupiedFraction (L : ℕ) [NeZero L] (g : Grid L) : ℚ :=
  (occupiedCount L g : ℚ) / (L * L : ℚ)

/-- Modelled from the spec: one step of the seeded pseudo-random generator
scoped to a single call (the missing functions file draws via a seeded
NumPy generator; any fixed deterministic congruential map represents it). -/
def lcg (s : ℕ) : ℕ := (1664525 * s + 1013904223) % 4294967296

/-- Modelled from the spec: the per-cell uniform draw in [0, 1) used by the
random-error model, a deterministic function of the call seed and the cell
position. -/
def cellDraw (seed a b : ℕ) : ℚ :=
  (lcg (seed + 2654435761 * a + 40503 * b) : ℚ) / 4294967296

/-- Modelled from the spec: `model_offset` (section 4.4; its body is not in
the surviving sources). Shifts the entire truth grid by the integer
displacement `dn` along one axis with wrap-around (toroidal) boundary, and
returns the model grid together with its occupied fraction. -/
def model_offset (L : ℕ) [NeZero L] (g : Grid L) (dn : ℤ) : Grid L × ℚ :=
  let g' : Grid L := fun i j => g i (j - (dn : ZMod L))
  (g', occupiedFraction L g')

/-- Modelled from the spec: `model_rand_err` (section 4.4; its body is not
in the surviving sources). For each cell independently, flips its binary
value exactly when the seeded uniform draw for that cell is below the error
rate `err`; returns the model grid together with its occupied fraction. -/
def model_rand_err (L : ℕ) [NeZero L] (g : Grid L) (err : ℚ) (seed : ℕ) :
    Grid L × ℚ :=
  let g' : Grid L := fun i j => if cellDraw seed i.val j.val < err then !(g i j) else g i j
  (g', occupiedFraction L g')

/-- The uniform per-cell draw is non-negative (it is a natural number
divided by a positive constant). -/
lemma cellDraw_nonneg (seed a b : ℕ) : 0 ≤ cellDraw seed a b := by
  unfold cellDraw
  positivity

/-- C2: for every binary grid and every integer `dn` with `|dn| < L`, the
offset model returns a grid with exactly the same count of occupied cells
as the input, and reports its occupied fraction (which therefore equals the
input fraction). -/
theorem offset_preserves_count (L : ℕ) [NeZero L] (g : Grid L) (dn : ℤ)
    (h : dn.natAbs < L) :
    occupiedCount L (model_offset L g dn).1 = occupiedCount L g ∧
      (model_offset L g dn).2 = occupiedFraction L g := by
  have hcount : occupiedCount L (model_offset L g dn).1 = occupiedCount L g := by
    unfold occupiedCount model_offset
    rw [Fintype.sum_prod_type, Fintype.sum_prod_type]
    refine Finset.sum_congr rfl fun i _ => ?_
    exact Fintype.sum_equiv (Equiv.subRight ((dn : ZMod L))) _ _ fun j => rfl
  refine ⟨hcount, ?_⟩
  show occupiedFraction L (model_offset L g dn).1 = occupiedFraction L g
  unfold occupiedFraction
  rw [hcount]

/-- Witness for C2 at a concrete input: a 3×3 all-occupied grid shifted by
`dn = 1`. -/
theorem offset_preserves_count_witness :
    (1 : ℤ).natAbs < 3 ∧
      (occupiedCount 3 (model_offset 3 (fun _ _ => true) 1).1 =
          occupiedCount 3 (fun _ _ => true) ∧
        (model_offset 3 (fun _ _ => true) 1).2 =
          occupiedFraction 3 (fun _ _ => true)) :=
  ⟨by decide, offset_preserves_count 3 (fun _ _ => true) 1 (by decide)⟩

/-- C6: offsetting by `dn` and then by `-dn` returns the original grid. -/
theorem offset_round_trip (L : ℕ) [NeZero L] (g : Grid L) (dn : ℤ)
    (h : dn.natAbs < L) :
    (model_offset L (model_offset L g dn).1 (-dn)).1 = g := by
  funext i j
  show g i (j - ((-dn : ℤ) : ZMod L) - (dn : ZMod L)) = g i j
  have hz : j - ((-dn : ℤ) : ZMod L) - (dn : ZMod L) = j := by
    push_cast
    ring
  rw [hz]

/-- Witness for C6 at a concrete input: a 3×3 grid occupied exactly on the
diagonal, shifted by `dn = 2` and back. -/
theorem offset_round_trip_witness :
    (2 : ℤ).natAbs < 3 ∧
      (model_offset 3 (model_offset 3 (fun i j => i == j) 2).1 (-2)).1 =
        (fun i j => i == j) :=
  ⟨by decide, offset_round_trip 3 (fun i j => i == j) 2 (by decide)⟩

/-- C7: the random-error model with error rate 0 returns a grid identical
to its source, for every source grid and every seed. -/
theorem rand_err_zero_identity (L : ℕ) [NeZero L] (g : Grid L) (seed : ℕ) :
    (model_rand_err L g 0 seed).1 = g := by
  funext i j
  show (if cellDraw seed i.val j.val < 0 then !(g i j) else g i j) = g i j
  rw [if_neg (not_lt.mpr (cellDraw_nonneg seed i.val j.val))]

/-- Witness for C7 at a concrete input: a 2×2 grid with one occupied cell,
seed 5. -/
theorem rand_err_zero_identity_witness :
    (model_rand_err 2 (fun i j => i == 0 && j == 1) 0 5).1 =
      (fun i j => i == 0 && j == 1) :=
  rand_err_zero_identity 2 (fun i j => i == 0 && j == 1) 5

/-- Modelled from the spec: count of True Positive cells (truth 1, model 1)
of `accuracy_metrics` (section 4.5; its body is not in the surviving
sources). -/
def truePos (L : ℕ) [NeZero L] (zt zm : Grid L) : ℕ :=
  ∑ p : ZMod L × ZMod L, if zt p.1 p.2 && zm p.1 p.2 then 1 else 0

/-- Modelled from the spec: count of False Positive cells (truth 0, model 1). -/
def falsePos (L : ℕ) [NeZero L] (zt zm : Grid L) : ℕ :=
  ∑ p : ZMod L × ZMod L, if !zt p.1 p.2 && zm p.1 p.2 then 1 else 0

/-- Modelled from the spec: count of False Negative cells (truth 1, model 0). -/
def falseNeg (L : ℕ) [NeZero L] (zt zm : Grid L) : ℕ :=
  ∑ p : ZMod L × ZMod L, if zt p.1 p.2 && !zm p.1 p.2 then 1 else 0

/-- Modelled from the spec: count of True Negative cells (truth 0, model 0). -/
def trueNeg (L : ℕ) [NeZero L] (zt zm : Grid L) : ℕ :=
  ∑ p : ZMod L × ZMod L, if !zt p.1 p.2 && !zm p.1 p.2 then 1 else 0

/-- Modelled from the spec: F1 = 2·TP / (2·TP + FP + FN), defined as 0 when
the denominator is 0. -/
def f1score (L : ℕ) [NeZero L] (zt zm : Grid L) : ℚ :=
  if 2 * truePos L zt zm + falsePos L zt zm + falseNeg L zt zm = 0 then 0
  else (2 * truePos L zt zm : ℚ) /
    (2 * truePos L zt zm + falsePos L zt zm + falseNeg L zt zm : ℚ)

/-- Modelled from the spec: MCC = (TP·TN − FP·FN) / sqrt((TP+FP)(TP+FN)(TN+FP)(TN+FN)),
defined as 0 when any factor under the square root is 0 (degenerate
confusion matrix). -/
noncomputable def mcc (L : ℕ) [NeZero L] (zt zm : Grid L) : ℝ :=
  let tp := truePos L zt zm
  let fp := falsePos L zt zm
  let fn := falseNeg L zt zm
  let tn := trueNeg L zt zm
  if (tp + fp) * (tp + fn) * (tn + fp) * (tn + fn) = 0 then 0
  else ((tp * tn : ℤ) - (fp * fn : ℤ) : ℝ) /
    Real.sqrt (((tp + fp) * (tp + fn) * (tn + fp) * (tn + fn) : ℕ) : ℝ)

/-- Modelled from the spec: nMCC = (MCC + 1) / 2, rescaling MCC from [-1,1]
to [0,1]. -/
noncomputable def nmcc (L : ℕ) [NeZero L] (zt zm : Grid L) : ℝ :=
  (mcc L zt zm + 1) / 2

/-- Modelled from the spec: classified label grid with the integer codes the
main script's colorbar depends on (1=TN, 2=FP, 3=FN, 4=TP). -/
def classGrid (L : ℕ) [NeZero L] (zt zm : Grid L) : ZMod L → ZMod L → ℕ :=
  fun i j =>
    if zt i j then (if zm i j then 4 else 3) else (if zm i j then 2 else 1)

/-- The tuple returned by `accuracy_metrics`:
(F1, nMCC, classified grid, TN, TP, FN, FP). -/
structure Metrics (L : ℕ) where
  F1 : ℚ
  nMCC : ℝ
  zclass : ZMod L → ZMod L → ℕ
  TN : ℕ
  TP : ℕ
  FN : ℕ
  FP : ℕ

/-- Modelled from the spec: `accuracy_metrics` (section 4.5; its body is
not in the surviving sources) computes the confusion counts between truth
and model grids of identical shape, F1, nMCC and the classified label
grid. -/
noncomputable def accuracy_metrics (L : ℕ) [NeZero L] (zt zm : Grid L) : Metrics L :=
  ⟨f1score L zt zm, nmcc L zt zm, classGrid L zt zm,
    trueNeg L zt zm, truePos L zt zm, falseNeg L zt zm, falsePos L zt zm⟩

/-- C1: for every pair of truth and model grids of shape L×L, the four
confusion counts returned by `accuracy_metrics` sum to L·L. -/
theorem confusion_counts_complete (L : ℕ) [NeZero L] (zt zm : Grid L) :
    (accuracy_metrics L zt zm).TP + (accuracy_metrics L zt zm).FP +
        (accuracy_metrics L zt zm).FN + (accuracy_metrics L zt zm).TN = L * L := by
  show truePos L zt zm + falsePos L zt zm + falseNeg L zt zm + trueNeg L zt zm = L * L
  unfold truePos falsePos falseNeg trueNeg
  rw [← Finset.sum_add_distrib, ← Finset.sum_add_distrib, ← Finset.sum_add_distrib]
  have hone : ∀ p : ZMod L × ZMod L,
      ((if zt p.1 p.2 && zm p.1 p.2 then 1 else 0) +
          (if !zt p.1 p.2 && zm p.1 p.2 then 1 else 0) +
          (if zt p.1 p.2 && !zm p.1 p.2 then 1 else 0) +
          (if !zt p.1 p.2 && !zm p.1 p.2 then 1 else 0)) = 1 := by
    intro p
    cases zt p.1 p.2 <;> cases zm p.1 p.2 <;> simp
  rw [Finset.sum_congr rfl fun p _ => hone p, Finset.sum_const, smul_eq_mul,
    mul_one, Finset.card_univ, Fintype.card_prod, ZMod.card L]

/-- Witness for C1 at a concrete input (2×2 grids, instantiating the
`NeZero` side condition). -/
theorem confusion_counts_complete_witness :
    (accuracy_metrics 2 (fun i j => i == j) (fun _ _ => true)).TP +
        (accuracy_metrics 2 (fun i j => i == j) (fun _ _ => true)).FP +
        (accuracy_metrics 2 (fun i j => i == j) (fun _ _ => true)).FN +
        (accuracy_metrics 2 (fun i j => i == j) (fun _ _ => true)).TN = 2 * 2 :=
  confusion_counts_complete 2 (fun i j => i == j) (fun _ _ => true)

/-- The all-zero 5×5 grid. -/
def zeroGrid5 : Grid 5 := fun _ _ => false

/-- C5: on an all-zero 5×5 truth grid and all-zero 5×5 model grid,
`accuracy_metrics` returns TP=0, FP=0, FN=0, TN=25, F1=0 (zero-denominator
convention) and nMCC=1/2 (MCC defined as 0 on a degenerate confusion
matrix, rescaled by (MCC+1)/2). -/
theorem allzero_metrics_degenerate :
    (accuracy_metrics 5 zeroGrid5 zeroGrid5).TP = 0 ∧
      (accuracy_metrics 5 zeroGrid5 zeroGrid5).FP = 0 ∧
      (accuracy_metrics 5 zeroGrid5 zeroGrid5).FN = 0 ∧
      (accuracy_metrics 5 zeroGrid5 zeroGrid5).TN = 25 ∧
      (accuracy_metrics 5 zeroGrid5 zeroGrid5).F1 = 0 ∧
      (accuracy_metrics 5 zeroGrid5 zeroGrid5).nMCC = 1 / 2 := by
  have htp : truePos 5 zeroGrid5 zeroGrid5 = 0 := by decide
  have hfp : falsePos 5 zeroGrid5 zeroGrid5 = 0 := by decide
  have hfn : falseNeg 5 zeroGrid5 zeroGrid5 = 0 := by decide
  have htn : trueNeg 5 zeroGrid5 zeroGrid5 = 25 := by decide
  refine ⟨htp, hfp, hfn, htn, ?_, ?_⟩
  · show f1score 5 zeroGrid5 zeroGrid5 = 0
    unfold f1score
    rw [htp, hfp, hfn]
    norm_num
  · show nmcc 5 zeroGrid5 zeroGrid5 = 1 / 2
    unfold nmcc mcc
    rw [htp, hfp, hfn, htn]
    norm_num

/-- Modelled from the spec: one pseudo-random draw of a tor centre
coordinate inside `[0, L) × [0, L)`, threading the call-scoped generator
state. -/
def drawCenter (L rng : ℕ) : (ℕ × ℕ) × ℕ :=
  let s1 := lcg rng
  let s2 := lcg s1
  ((s1 % L, s2 % L), s2)

/-- Modelled from the spec: rasterizing the all-ones `S×S` kernel centred at
a coordinate onto the grid, with zero-fill boundary handling (stamps that
extend past the edge are clipped) and binarization (occupied if any stamp
covers the cell; overlaps do not double-count). -/
def stamp (L S : ℕ) [NeZero L] (c : ℕ × ℕ) (g : Grid L) : Grid L :=
  fun i j =>
    g i j ||
      decide ((c.1 : ℤ) - (S / 2 : ℕ) ≤ (i.val : ℤ) ∧
        (i.val : ℤ) < (c.1 : ℤ) - (S / 2 : ℕ) + S ∧
        (c.2 : ℤ) - (S / 2 : ℕ) ≤ (j.val : ℤ) ∧
        (j.val : ℤ) < (c.2 : ℤ) - (S / 2 : ℕ) + S)

/-- Modelled from the spec: the tor placement loop body, fuelled by the
safety cap. In each round, if the occupied fraction has reached or exceeded
the target the loop stops; otherwise one more tor centre is drawn and
stamped. Returns the final grid and the number of placements performed. -/
def torPlaceAux (L S : ℕ) [NeZero L] (frac : ℚ) :
    ℕ → Grid L → ℕ → Grid L × ℕ
  | 0, g, _ => (g, 0)
  | fuel + 1, g, rng =>
    if frac ≤ occupiedFraction L g then (g, 0)
    else
      let d := drawCenter L rng
      let r := torPlaceAux L S frac fuel (stamp L S d.1 g) d.2
      (r.1, r.2 + 1)

/-- Modelled from the spec: the safety cap on tor placements, chosen
proportional to the grid area (grid area / kernel area with multiplier S²),
guaranteeing termination when the target fraction is unreachable. -/
def torCap (L : ℕ) : ℕ := L * L

/-- Modelled from the spec: `tor_location` (section 4.2; its body is not in
the surviving sources) iterates tor placement from an all-zero grid with a
call-scoped generator initialized from the seed, stopping as soon as the
occupied fraction reaches or exceeds `frac` or the safety cap is exhausted.
Returns the final grid and the number of placements. -/
def tor_location (L S : ℕ) [NeZero L] (frac : ℚ) (seed : ℕ) : Grid L × ℕ :=
  torPlaceAux L S frac (torCap L) (fun _ _ => false) (lcg seed)

/-- Modelled from the spec: `generate_grid` (section 4.3; its body is not in
the surviving sources) builds the kernel, delegates to `tor_location` and
returns the grid with its achieved fraction. -/
def generate_grid (L : ℕ) [NeZero L] (frac : ℚ) (seed scale : ℕ) : Grid L × ℚ :=
  let t := tor_location L scale frac seed
  (t.1, occupiedFraction L t.1)

/-- The placement loop performs at most `fuel` placements, and when it stops
under the cap the occupied fraction has reached the target. -/
lemma torPlaceAux_bounded (L S : ℕ) [NeZero L] (frac : ℚ) :
    ∀ (fuel : ℕ) (g : Grid L) (rng : ℕ),
      (torPlaceAux L S frac fuel g rng).2 ≤ fuel ∧
        (frac ≤ occupiedFraction L (torPlaceAux L S frac fuel g rng).1 ∨
          (torPlaceAux L S frac fuel g rng).2 = fuel) := by
  intro fuel
  induction fuel with
  | zero =>
    intro g rng
    exact ⟨Nat.le_refl 0, Or.inr rfl⟩
  | succ n ih =>
    intro g rng
    by_cases hstop : frac ≤ occupiedFraction L g
    · rw [torPlaceAux, if_pos hstop]
      exact ⟨Nat.zero_le _, Or.inl hstop⟩
    · rw [torPlaceAux, if_neg hstop]
      obtain ⟨h1, h2⟩ := ih (stamp L S (drawCenter L rng).1 g) (drawCenter L rng).2
      refine ⟨Nat.succ_le_succ h1, ?_⟩
      rcases h2 with h2 | h2
      · exact Or.inl h2
      · refine Or.inr ?_
        show (torPlaceAux L S frac n (stamp L S (drawCenter L rng).1 g)
          (drawCenter L rng).2).2 + 1 = n + 1
        rw [h2]

/-- C9: the tor placement loop terminates for every input, stopping either
with an occupied fraction that reaches or exceeds the target fraction, or
after a number of placements bounded by the safety cap (so placement
terminates even when the target is unreachable). -/
theorem tor_placement_terminates (L S : ℕ) [NeZero L] (frac : ℚ) (seed : ℕ) :
    (tor_location L S frac seed).2 ≤ torCap L ∧
      (frac ≤ occupiedFraction L (tor_location L S frac seed).1 ∨
        (tor_location L S frac seed).2 = torCap L) :=
  torPlaceAux_bounded L S frac (torCap L) (fun _ _ => false) (lcg seed)

/-- Witness for C9 at a concrete input with an unreachable target fraction
(`frac = 2 ≥ 1` on a 2×2 grid). -/
theorem tor_placement_terminates_witness :
    (tor_location 2 1 2 0).2 ≤ torCap 2 ∧
      ((2 : ℚ) ≤ occupiedFraction 2 (tor_location 2 1 2 0).1 ∨
        (tor_location 2 1 2 0).2 = torCap 2) :=
  tor_placement_terminates 2 1 2 0

/-- The sweep of `generate_grid` calls, modelled from the spec: randomness
is scoped per call via the explicit seed, so a sequence of calls is the
sequence of their independent results (no global random state). Each call
is a `(frac, seed, scale)` argument triple. -/
def sweepGenerate (L : ℕ) [NeZero L] (calls : List (ℚ × ℕ × ℕ)) :
    List (Grid L × ℚ) :=
  calls.map fun a => generate_grid L a.1 a.2.1 a.2.2

/-- C8: a `generate_grid` call yields a result determined by its arguments
alone: in any two call sequences ending with the same argument triple, the
final call returns identical grids and fractions, regardless of the prior
calls. -/
theorem generate_grid_reproducible (L : ℕ) [NeZero L]
    (pre1 pre2 : List (ℚ × ℕ × ℕ)) (a : ℚ × ℕ × ℕ) :
    (sweepGenerate L (pre1 ++ [a])).getLast? =
        some (generate_grid L a.1 a.2.1 a.2.2) ∧
      (sweepGenerate L (pre1 ++ [a])).getLast? =
        (sweepGenerate L (pre2 ++ [a])).getLast? := by
  have hlast : ∀ pre : List (ℚ × ℕ × ℕ),
      (sweepGenerate L (pre ++ [a])).getLast? =
        some (generate_grid L a.1 a.2.1 a.2.2) := by
    intro pre
    unfold sweepGenerate
    rw [List.map_append]
    rw [List.getLast?_append_of_ne_nil _ (by simp)]
    rfl
  exact ⟨hlast pre1, (hlast pre1).trans (hlast pre2).symm⟩

/-- Witness for C8 at concrete inputs: two different prior call histories
followed by the same call. -/
theorem generate_grid_reproducible_witness :
    (sweepGenerate 2 ([] ++ [((1 : ℚ) / 2, 1, 1)])).getLast? =
        some (generate_grid 2 (1 / 2) 1 1) ∧
      (sweepGenerate 2 ([] ++ [((1 : ℚ) / 2, 1, 1)])).getLast? =
        (sweepGenerate 2 ([((1 : ℚ) / 4, 7, 2)] ++ [((1 : ℚ) / 2, 1, 1)])).getLast? :=
  generate_grid_reproducible 2 [] [((1 : ℚ) / 4, 7, 2)] ((1 : ℚ) / 2, 1, 1)

/-- Modelled from the spec: look up a cell at integer planar coordinates,
treating anything outside `[0, L) × [0, L)` (the grid boundary) as
unoccupied. -/
def cellAt (L : ℕ) [NeZero L] (g : Grid L) (a b : ℤ) : Bool :=
  if 0 ≤ a ∧ a < (L : ℤ) ∧ 0 ≤ b ∧ b < (L : ℤ) then
    g ((a.toNat : ℕ) : ZMod L) ((b.toNat : ℕ) : ZMod L)
  else false

/-- Modelled from the spec: an occupied cell is an edge pixel when at least
one of its 4-connected neighbours (grid boundary included) is unoccupied. -/
def isEdgeCell (L : ℕ) [NeZero L] (g : Grid L) (i j : ZMod L) : Bool :=
  g i j &&
    (!cellAt L g ((i.val : ℤ) - 1) (j.val : ℤ) ||
      !cellAt L g ((i.val : ℤ) + 1) (j.val : ℤ) ||
      !cellAt L g (i.val : ℤ) ((j.val : ℤ) - 1) ||
      !cellAt L g (i.val : ℤ) ((j.val : ℤ) + 1))

/-- Modelled from the spec: number of edge pixels of the positive class. -/
def edgeCount (L : ℕ) [NeZero L] (g : Grid L) : ℕ :=
  ∑ p : ZMod L × ZMod L, if isEdgeCell L g p.1 p.2 then 1 else 0

/-- Modelled from the spec: `edge_to_area` (section 4.6; its body is not in
the surviving sources): the ratio of edge pixels to occupied-cell count,
with 0 returned for an all-zero grid. -/
def edge_to_area (L : ℕ) [NeZero L] (g : Grid L) : ℚ :=
  if occupiedCount L g = 0 then 0
  else (edgeCount L g : ℚ) / (occupiedCount L g : ℚ)

/-- Outcome of the main script's scenario dispatch: either a model grid with
its fraction, or the legacy printed warning of the `else` branch. -/
inductive StepResult (L : ℕ) where
  | ok (zm : Grid L) (fm : ℚ)
  | warn (msg : String)

/-- The truth-model scenario dispatch of `synthetic_bedrock_maps_main.py`
(lines 70-93): `sflag` 1 regenerates at the constant fraction `con` with
seed 2; 2 regenerates at the truth target fraction with seed 2; 3 applies
the random-error model; 4 applies the offset model; 5 applies the offset
model and then the random-error model to its output; any other code falls
to the `else` branch, which prints a warning and continues. -/
def scenarioDispatch (L : ℕ) [NeZero L] (sflag : ℕ) (zt : Grid L)
    (fi con : ℚ) (off : ℤ) (rand : ℚ) (scl : ℕ) : StepResult L :=
  if sflag = 1 then
    let p := generate_grid L con 2 scl
    .ok p.1 p.2
  else if sflag = 2 then
    let p := generate_grid L fi 2 scl
    .ok p.1 p.2
  else if sflag = 3 then
    let p := model_rand_err L zt rand 2
    .ok p.1 p.2
  else if sflag = 4 then
    let p := model_offset L zt off
    .ok p.1 p.2
  else if sflag = 5 then
    let zi := model_offset L zt off
    let p := model_rand_err L zi.1 rand 2
    .ok p.1 p.2
  else
    .warn "You have not entered a model scenario."

/-- One row of the results table saved by the main script:
`np.c_[fm, F1, nMCC, TN, TP, FN, FP, e2a]`. -/
structure ResultsRow (L : ℕ) where
  fm : ℚ
  F1 : ℚ
  nMCC : ℝ
  TN : ℕ
  TP : ℕ
  FN : ℕ
  FP : ℕ
  e2a : ℚ

/-- One iteration of the sweep loop of `synthetic_bedrock_maps_main.py`
(lines 64-97): generate the truth grid at target fraction `fi` with seed 1,
dispatch on the scenario code to obtain the model grid and its fraction,
compute the accuracy metrics of truth against model, and record the
edge-to-area ratio of the model grid; a scenario code on the `else` branch
produces no well-defined row. -/
noncomputable def sweepIteration (L : ℕ) [NeZero L] (sflag : ℕ)
    (fi con : ℚ) (off : ℤ) (rand : ℚ) (scl : ℕ) : Option (ResultsRow L) :=
  let zt := (generate_grid L fi 1 scl).1
  match scenarioDispatch L sflag zt fi con off rand scl with
  | .ok zm fm =>
    let m := accuracy_metrics L zt zm
    some ⟨fm, m.F1, m.nMCC, m.TN, m.TP, m.FN, m.FP, edge_to_area L zm⟩
  | .warn _ => none

/-- C3 counterexample: at the concrete scenario code 6 (outside the five
defined codes) the dispatch of the main script produces the legacy printed
warning and continues; it does not fail with an error outcome. -/
theorem unknown_scenario_cex :
    scenarioDispatch 2 6 (fun _ _ => false) 0 0 0 0 1 =
      .warn "You have not entered a model scenario." := rfl

/-- C3 amended: for every scenario code outside the five defined codes, the
sweep driver's dispatch prints the warning message of the legacy `else`
branch and continues; no UnknownScenario failure is raised. -/
theorem unknown_scenario_warns (L : ℕ) [NeZero L] (sflag : ℕ) (zt : Grid L)
    (fi con : ℚ) (off : ℤ) (rand : ℚ) (scl : ℕ)
    (h1 : sflag ≠ 1) (h2 : sflag ≠ 2) (h3 : sflag ≠ 3) (h4 : sflag ≠ 4)
    (h5 : sflag ≠ 5) :
    scenarioDispatch L sflag zt fi con off rand scl =
      .warn "You have not entered a model scenario." := by
  unfold scenarioDispatch
  rw [if_neg h1, if_neg h2, if_neg h3, if_neg h4, if_neg h5]

/-- Witness for the amended C3 at the concrete scenario code 7. -/
theorem unknown_scenario_warns_witness :
    (7 : ℕ) ≠ 1 ∧ (7 : ℕ) ≠ 2 ∧ (7 : ℕ) ≠ 3 ∧ (7 : ℕ) ≠ 4 ∧ (7 : ℕ) ≠ 5 ∧
      scenarioDispatch 3 7 (fun _ _ => true) 0 0 1 0 1 =
        .warn "You have not entered a model scenario." :=
  ⟨by decide, by decide, by decide, by decide, by decide,
    unknown_scenario_warns 3 7 (fun _ _ => true) 0 0 1 0 1
      (by decide) (by decide) (by decide) (by decide) (by decide)⟩

/-- C4: the combined error model (scenario 5) applies the offset model to
the truth grid first, then the random-error model to the offset output with
its own seed, and the fraction it reports is the occupied fraction of the
final grid produced by the random-error step. -/
theorem combined_model_order (L : ℕ) [NeZero L] (zt : Grid L)
    (fi con : ℚ) (off : ℤ) (rand : ℚ) (scl : ℕ) :
    scenarioDispatch L 5 zt fi con off rand scl =
        .ok (model_rand_err L (model_offset L zt off).1 rand 2).1
          (model_rand_err L (model_offset L zt off).1 rand 2).2 ∧
      (model_rand_err L (model_offset L zt off).1 rand 2).2 =
        occupiedFraction L (model_rand_err L (model_offset L zt off).1 rand 2).1 :=
  ⟨rfl, rfl⟩

/-- Witness for C4 at a concrete input (instantiating the `NeZero` side
condition): 2×2 diagonal truth grid, offset 1, error rate 1/2. -/
theorem combined_model_order_witness :
    scenarioDispatch 2 5 (fun i j => i == j) 0 0 1 (1 / 2) 1 =
        .ok (model_rand_err 2 (model_offset 2 (fun i j => i == j) 1).1 (1 / 2) 2).1
          (model_rand_err 2 (model_offset 2 (fun i j => i == j) 1).1 (1 / 2) 2).2 ∧
      (model_rand_err 2 (model_offset 2 (fun i j => i == j) 1).1 (1 / 2) 2).2 =
        occupiedFraction 2
          (model_rand_err 2 (model_offset 2 (fun i j => i == j) 1).1 (1 / 2) 2).1 :=
  combined_model_order 2 (fun i j => i == j) 0 0 1 (1 / 2) 1

/-- C10: whenever the scenario dispatch of a sweep iteration produces a
model grid, the edge-to-area value recorded in that iteration's results row
is the edge-to-area ratio of that model grid (not of the truth grid). -/
theorem e2a_from_model_grid (L : ℕ) [NeZero L] (sflag : ℕ)
    (fi con : ℚ) (off : ℤ) (rand : ℚ) (scl : ℕ) (zm : Grid L) (fm : ℚ)
    (h : scenarioDispatch L sflag ((generate_grid L fi 1 scl).1) fi con off rand scl =
      .ok zm fm) :
    (sweepIteration L sflag fi con off rand scl).map ResultsRow.e2a =
      some (edge_to_area L zm) := by
  simp only [sweepIteration]
  rw [h]
  rfl

/-- Witness for C10 at a concrete input: scenario 1 on a 2×2 sweep
iteration, whose model grid is regenerated at constant fraction 0. -/
theorem e2a_from_model_grid_witness :
    scenarioDispatch 2 1 ((generate_grid 2 (1 / 2) 1 1).1) (1 / 2) 0 0 0 1 =
        .ok (generate_grid 2 0 2 1).1 (generate_grid 2 0 2 1).2 ∧
      (sweepIteration 2 1 (1 / 2) 0 0 0 1).map ResultsRow.e2a =
        some (edge_to_area 2 (generate_grid 2 0 2 1).1) :=
  ⟨rfl, e2a_from_model_grid 2 1 (1 / 2) 0 0 0 1 (generate_grid 2 0 2 1).1
    (generate_grid 2 0 2 1).2 rfl⟩

end Bedrock
